import Mathlib

/-!
Verification of the transaction concurrency and lifecycle coordinator of
`src/dbus/tukitd.c` (the `tukitd` D-Bus daemon of transactional-update).

The registry of locked transactions is a sentinel-terminated singly linked
list in the C source; we embed it as a `List TransactionEntry` holding the
real entries (the sentinel node, whose `id` is `NULL`, marks the end of the
list and is not represented).  External collaborators (libtukit engine
calls, sd-bus primitives, wordexp, malloc/strdup) are embedded as explicit
outcome oracles passed to each handler, so every code path of the C
functions is a branch of the corresponding Lean function.
-/

namespace Tukitd

/-- The C enum `transactionstates { queued, running, finished }` (tukitd.c line 11). -/
inductive transactionstates where
  | queued
  | running
  | finished
deriving DecidableEq, Repr

/-- One real node of the `TransactionEntry` linked list (tukitd.c lines 13-17).
The `next` pointer is implicit in the list structure; the sentinel node
(`id == NULL`) is not represented. -/
structure TransactionEntry where
  id : String
  state : transactionstates
deriving DecidableEq, Repr

/-- The ids held in the registry, in list order. -/
def idsOf (reg : List TransactionEntry) : List String :=
  reg.map (fun e => e.id)

/-- Linux error numbers used by `lockSnapshot` (`-EBUSY`, `-ENOMEM`). -/
def EBUSY : Int := 16

def ENOMEM : Int := 12

/-- The scan loop of `lockSnapshot` (tukitd.c lines 29-35): walk the list
until the sentinel, return true iff a node with this id is found. -/
def lockScan : List TransactionEntry → String → Bool
  | [], _ => false
  | e :: rest, transaction =>
    if e.id = transaction then true else lockScan rest transaction

/-- Result of `lockSnapshot`: the return code, the `sd_bus_error` message set
(if any), and the registry after the call. -/
structure LockResult where
  ret : Int
  err : Option String
  reg : List TransactionEntry
deriving DecidableEq, Repr

/-- Model of `lockSnapshot` (tukitd.c lines 25-50).  Scans the registry for the id; if
found returns `-EBUSY` without modifying state.  Otherwise a fresh sentinel
node is allocated (`mallocOk` is the outcome of that `malloc`), the id is
copied into the old sentinel (`strdupOk` is the outcome of `strdup`), and the
old sentinel becomes a real entry in state `queued` appended at the end of
the list.  Both allocation failures leave the registry unchanged and return
`-ENOMEM`. -/
def lockSnapshot (mallocOk strdupOk : Bool) (reg : List TransactionEntry)
    (transaction : String) : LockResult :=
  if lockScan reg transaction then
    ⟨-EBUSY, some "The transaction is currently in use by another thread.", reg⟩
  else if mallocOk = false then
    ⟨-ENOMEM, some "Error while allocating space for transaction.", reg⟩
  else if strdupOk = false then
    ⟨-ENOMEM, some "Error during strdup.", reg⟩
  else
    ⟨0, none, reg ++ [⟨transaction, transactionstates.queued⟩]⟩

/-- Model of `unlockSnapshot` (tukitd.c lines 52-73).  Walks the list; at the first
node whose id matches, the next node's `id` (and, when the next node is not
the sentinel, its `next` pointer) are copied into the matching node and the
next node is freed.  Note that the C code does NOT copy the next node's
`state` field, so the node that takes over the next id keeps the removed
node's state; the embedding reproduces this faithfully.  If no node matches,
the registry is left unchanged. -/
def unlockSnapshot : List TransactionEntry → String → List TransactionEntry
  | [], _ => []
  | e :: rest, transaction =>
    if e.id = transaction then
      match rest with
      | [] => []
      | e2 :: rest2 => ⟨e2.id, e.state⟩ :: rest2
    else e :: unlockSnapshot rest transaction

/-! ### Registry lemmas -/

theorem lockScan_iff_mem (reg : List TransactionEntry) (t : String) :
    lockScan reg t = true ↔ t ∈ idsOf reg := by
  induction reg with
  | nil => simp [lockScan, idsOf]
  | cons e rest ih =>
    by_cases h : e.id = t
    · simp [lockScan, idsOf, h]
    · simp only [lockScan, if_neg h, idsOf, List.map_cons, List.mem_cons]
      rw [ih]
      constructor
      · intro hm
        exact Or.inr hm
      · rintro (hm | hm)
        · exact absurd hm.symm h
        · exact hm

theorem ids_unlock (reg : List TransactionEntry) (t : String) :
    idsOf (unlockSnapshot reg t) = (idsOf reg).erase t := by
  induction reg with
  | nil => simp [unlockSnapshot, idsOf]
  | cons e rest ih =>
    by_cases h : e.id = t
    · cases rest with
      | nil => simp [unlockSnapshot, idsOf, h, List.erase_cons]
      | cons e2 rest2 => simp [unlockSnapshot, idsOf, h, List.erase_cons]
    · have hne : (e.id == t) = false := by
        simp [h]
      simp only [unlockSnapshot, if_neg h, idsOf, List.map_cons, List.erase_cons, hne,
        if_neg, Bool.false_eq_true, not_false_iff]
      exact congrArg (fun l => e.id :: l) ih

theorem unlock_of_not_mem (reg : List TransactionEntry) (t : String)
    (h : t ∉ idsOf reg) : unlockSnapshot reg t = reg := by
  induction reg with
  | nil => rfl
  | cons e rest ih =>
    simp only [idsOf, List.map_cons, List.mem_cons, not_or] at h
    have hne : e.id ≠ t := fun he => h.1 he.symm
    have : t ∉ idsOf rest := h.2
    simp [unlockSnapshot, if_neg hne, ih this]

theorem not_mem_unlock (reg : List TransactionEntry) (t : String)
    (hnodup : (idsOf reg).Nodup) : t ∉ idsOf (unlockSnapshot reg t) := by
  rw [ids_unlock]
  intro hmem
  have := (hnodup.mem_erase_iff).mp hmem
  exact this.1 rfl

theorem nodup_unlock (reg : List TransactionEntry) (t : String)
    (hnodup : (idsOf reg).Nodup) : (idsOf (unlockSnapshot reg t)).Nodup := by
  rw [ids_unlock]
  exact hnodup.erase t

/-! ### Claims C1, C3, C4 -/

/-- Claim C1.  Mutual exclusion of the registry: for every id, calling
`lockSnapshot` while a record for that id is present returns `-EBUSY` and
leaves the registry (including the existing record) unchanged, whatever the
allocation outcomes; and after `unlockSnapshot` of that id, a subsequent
`lockSnapshot` of the same id succeeds (returns 0) and appends a new record
in state `queued`.  The registry is assumed duplicate-free, which every
reachable registry is (claim C3). -/
theorem c1_mutual_exclusion (reg : List TransactionEntry) (t : String)
    (mallocOk strdupOk : Bool) (hnodup : (idsOf reg).Nodup) :
    (t ∈ idsOf reg →
      lockSnapshot mallocOk strdupOk reg t =
        ⟨-EBUSY, some "The transaction is currently in use by another thread.", reg⟩) ∧
    lockSnapshot true true (unlockSnapshot reg t) t =
      ⟨0, none, unlockSnapshot reg t ++ [⟨t, transactionstates.queued⟩]⟩ := by
  constructor
  · intro hmem
    have hscan : lockScan reg t = true := (lockScan_iff_mem reg t).mpr hmem
    simp [lockSnapshot, hscan]
  · have hnm : t ∉ idsOf (unlockSnapshot reg t) := not_mem_unlock reg t hnodup
    have hscan : lockScan (unlockSnapshot reg t) t = false := by
      by_contra hc
      have : lockScan (unlockSnapshot reg t) t = true := by
        cases h : lockScan (unlockSnapshot reg t) t
        · exact absurd h hc
        · rfl
      exact hnm ((lockScan_iff_mem _ t).mp this)
    simp [lockSnapshot, hscan]

theorem c1_mutual_exclusion_witness :
    (("a" ∈ idsOf [⟨"a", transactionstates.queued⟩] →
      lockSnapshot true true [⟨"a", transactionstates.queued⟩] "a" =
        ⟨-EBUSY, some "The transaction is currently in use by another thread.",
          [⟨"a", transactionstates.queued⟩]⟩) ∧
    lockSnapshot true true (unlockSnapshot [⟨"a", transactionstates.queued⟩] "a") "a" =
      ⟨0, none, unlockSnapshot [⟨"a", transactionstates.queued⟩] "a" ++
        [⟨"a", transactionstates.queued⟩]⟩) :=
  c1_mutual_exclusion [⟨"a", transactionstates.queued⟩] "a" true true (by decide)

/-- Claim C3.  Registry uniqueness invariant: both registry operations
preserve the invariant that the registry holds at most one record per id
(expressed as `Nodup` of the id list); in particular a successful
`lockSnapshot` never creates a second record for an id already present. -/
theorem c3_registry_uniqueness (reg : List TransactionEntry) (t : String)
    (mallocOk strdupOk : Bool) (hnodup : (idsOf reg).Nodup) :
    (idsOf (lockSnapshot mallocOk strdupOk reg t).reg).Nodup ∧
    (idsOf (unlockSnapshot reg t)).Nodup := by
  refine ⟨?_, nodup_unlock reg t hnodup⟩
  by_cases hscan : lockScan reg t = true
  · simp [lockSnapshot, hscan, hnodup]
  · have hscan' : lockScan reg t = false := by
      cases h : lockScan reg t
      · rfl
      · exact absurd h hscan
    have hnm : t ∉ idsOf reg := fun hm => hscan ((lockScan_iff_mem reg t).mpr hm)
    cases mallocOk with
    | false => simp [lockSnapshot, hscan', hnodup]
    | true =>
      cases strdupOk with
      | false => simp [lockSnapshot, hscan', hnodup]
      | true =>
        simp only [lockSnapshot, hscan', Bool.false_eq_true, if_false, if_neg, if_true,
          reduceCtorEq, not_false_iff]
        have : idsOf (reg ++ [⟨t, transactionstates.queued⟩]) = idsOf reg ++ [t] := by
          simp [idsOf]
        simp only [this]
        rw [List.nodup_append]
        refine ⟨hnodup, List.nodup_singleton t, ?_⟩
        intro a ha hb
        simp only [List.mem_singleton] at hb
        exact hnm (hb ▸ ha)

theorem c3_registry_uniqueness_witness :
    (idsOf (lockSnapshot true true [⟨"a", transactionstates.queued⟩] "b").reg).Nodup ∧
    (idsOf (unlockSnapshot [⟨"a", transactionstates.queued⟩] "b")).Nodup :=
  c3_registry_uniqueness [⟨"a", transactionstates.queued⟩] "b" true true (by decide)

/-- Claim C4.  Idempotent unlock: for every registry state and every id with
no record in the registry, `unlockSnapshot` of that id is a no-op — it is a
total function (no crash) and leaves the registry exactly unchanged. -/
theorem c4_idempotent_unlock (reg : List TransactionEntry) (t : String)
    (h : t ∉ idsOf reg) : unlockSnapshot reg t = reg :=
  unlock_of_not_mem reg t h

theorem c4_idempotent_unlock_witness :
    unlockSnapshot [⟨"a", transactionstates.queued⟩] "b" =
      [⟨"a", transactionstates.queued⟩] :=
  c4_idempotent_unlock [⟨"a", transactionstates.queued⟩] "b" (by decide)

/-! ### Bus signals and the worker (`execution_func`) -/

/-- Payload of a D-Bus signal emitted by the daemon. -/
inductive BusSignal where
  | transactionOpened (snapshot : String)
  | commandExecuted (transaction : String) (returncode : Int) (output : String)
  | errorSignal (transaction : String) (message : String) (code : Int)
deriving DecidableEq, Repr

/-- A signal as put on the bus: object path, interface, member and payload. -/
structure EmittedSignal where
  path : String
  interface : String
  member : String
  body : BusSignal
deriving DecidableEq, Repr

/-- The `Error` signal as emitted by `send_error_signal` (tukitd.c line 90). -/
def errorEmitted (transaction message : String) (code : Int) : EmittedSignal :=
  ⟨"/org/opensuse/tukit", "org.opensuse.tukit", "Error",
    BusSignal.errorSignal transaction message code⟩

/-- The `CommandExecuted` signal as emitted by `execution_func`
(tukitd.c line 211). -/
def executedEmitted (transaction : String) (returncode : Int) (output : String) :
    EmittedSignal :=
  ⟨"/org/opensuse/tukit", "org.opensuse.tukit.Transaction", "CommandExecuted",
    BusSignal.commandExecuted transaction returncode output⟩

/-- The `TransactionOpened` signal as emitted by `transaction_open`
(tukitd.c line 132). -/
def openedEmitted (snapshot : String) : EmittedSignal :=
  ⟨"/org/opensuse/tukit", "org.opensuse.tukit.Transaction", "TransactionOpened",
    BusSignal.transactionOpened snapshot⟩

/-- The first string argument of each signal body; this is what
`signalCallback` reads with `sd_bus_message_read(m, "s", ...)`. -/
def signalTransaction : BusSignal → String
  | BusSignal.transactionOpened snapshot => snapshot
  | BusSignal.commandExecuted transaction _ _ => transaction
  | BusSignal.errorSignal transaction _ _ => transaction

/-- Model of `send_error_signal` (tukitd.c lines 86-97): emits the `Error` signal on a
freshly opened bus connection; `sendOk` is the outcome of the emission (on
failure the error is only logged, nothing reaches the bus). -/
def send_error_signal (sendOk : Bool) (transaction message : String) (code : Int) :
    List EmittedSignal :=
  if sendOk then [errorEmitted transaction message code] else []

/-- The libtukit engine entry points invoked by the worker. -/
inductive EngineCall where
  | newTx
  | resume
  | txExecute
  | txCallExt
  | keep
deriving DecidableEq, Repr

/-- Outcomes of the external calls made by one worker run: `tukit_new_tx`,
`tukit_tx_resume`, `wordexp`, `tukit_tx_execute`/`tukit_tx_call_ext` (the
command's numeric return code and captured output), `tukit_tx_keep`, the
`sd_bus_emit_signal` for `CommandExecuted`, and the emission inside
`send_error_signal`.  `errmsg` stands for `tukit_get_errmsg()`. -/
structure WorkerOracle where
  newTxOk : Bool
  resumeRet : Int
  wordexpRet : Int
  execRet : Int
  execOutput : String
  keepRet : Int
  emitExecutedRet : Int
  sendErrorOk : Bool
  errmsg : String
deriving DecidableEq, Repr

/-- Result of one worker run: the thread's return value, the signals that
actually reached the bus, and the engine entry points that were invoked. -/
structure WorkerResult where
  ret : Int
  signals : List EmittedSignal
  calls : List EngineCall
deriving DecidableEq, Repr

/-- Model of `execution_func` (tukitd.c lines 151-223), the worker thread body, after
it has copied the `execution_args` into locals and set the shared state to
`running` (that handshake is modelled separately for claim C8).  Each branch
mirrors one `goto finish_execute` path of the C function:
`tukit_new_tx` failure, `tukit_tx_resume` failure, `wordexp` failure (fixed
message, wordexp error code), `tukit_tx_keep` failure (output freed, engine
message, code `-1`), failed `CommandExecuted` emission (error signal instead),
and the success path. -/
def execution_func (o : WorkerOracle) (transaction command : String)
    (chrooted : Bool) : WorkerResult :=
  if o.newTxOk = false then
    ⟨0, send_error_signal o.sendErrorOk transaction o.errmsg (-1),
      [EngineCall.newTx]⟩
  else if o.resumeRet ≠ 0 then
    ⟨o.resumeRet, send_error_signal o.sendErrorOk transaction o.errmsg o.resumeRet,
      [EngineCall.newTx, EngineCall.resume]⟩
  else if o.wordexpRet ≠ 0 then
    ⟨o.wordexpRet,
      send_error_signal o.sendErrorOk transaction "Command could not be processed."
        o.wordexpRet,
      [EngineCall.newTx, EngineCall.resume]⟩
  else
    let ec := if chrooted then EngineCall.txExecute else EngineCall.txCallExt
    if o.keepRet ≠ 0 then
      ⟨o.keepRet, send_error_signal o.sendErrorOk transaction o.errmsg (-1),
        [EngineCall.newTx, EngineCall.resume, ec, EngineCall.keep]⟩
    else if 0 ≤ o.emitExecutedRet then
      ⟨o.emitExecutedRet, [executedEmitted transaction o.execRet o.execOutput],
        [EngineCall.newTx, EngineCall.resume, ec, EngineCall.keep]⟩
    else
      -- source message text: "Cannot send signal 'CommandExecuted'."
      ⟨o.emitExecutedRet,
        send_error_signal o.sendErrorOk transaction
          "Cannot send signal CommandExecuted." o.emitExecutedRet,
        [EngineCall.newTx, EngineCall.resume, ec, EngineCall.keep]⟩

/-- Number of emitted signals whose first string argument is `t`, i.e. the
number of unlock requests for `t` that will re-enter `signalCallback`. -/
def countSignalsFor (t : String) (l : List EmittedSignal) : Nat :=
  (l.filter (fun e => signalTransaction e.body == t)).length

/-! ### The synchronous handlers (`transaction_close`, `transaction_abort`) -/

/-- Outcomes of the external calls made by `transaction_close`: the
`sd_bus_message_read`, the two allocations inside `lockSnapshot`,
`tukit_new_tx`, `tukit_tx_resume` and `tukit_tx_finalize`; `transaction` is
the id read from the message. -/
structure CloseOracle where
  readOk : Bool
  transaction : String
  mallocOk : Bool
  strdupOk : Bool
  newTxOk : Bool
  resumeRet : Int
  finalizeRet : Int
  errmsg : String
deriving DecidableEq, Repr

/-- Result of a synchronous handler: return value, `sd_bus_error` message
set (if any), registry after the call, and how many times `unlockSnapshot`
was invoked. -/
structure CloseResult where
  ret : Int
  err : Option String
  reg : List TransactionEntry
  unlocks : Nat
deriving DecidableEq, Repr

/-- Model of `transaction_close` (tukitd.c lines 284-318).  Reads the id, acquires the
lock (returning the lock error directly on failure), then resumes and
finalizes the transaction; every path after a successful lock ends in the
`finish_close` label, which calls `unlockSnapshot` exactly once.  Note the C
function returns `ret`, which is still 0 on the `tukit_new_tx == NULL`
path. -/
def transaction_close (o : CloseOracle) (reg : List TransactionEntry) :
    CloseResult :=
  if o.readOk = false then
    ⟨-1, some "Could not read D-Bus parameters.", reg, 0⟩
  else
    let lr := lockSnapshot o.mallocOk o.strdupOk reg o.transaction
    if lr.ret ≠ 0 then
      ⟨lr.ret, lr.err, lr.reg, 0⟩
    else if o.newTxOk = false then
      ⟨0, some o.errmsg, unlockSnapshot lr.reg o.transaction, 1⟩
    else if o.resumeRet ≠ 0 then
      ⟨o.resumeRet, some o.errmsg, unlockSnapshot lr.reg o.transaction, 1⟩
    else if o.finalizeRet ≠ 0 then
      ⟨o.finalizeRet, some o.errmsg, unlockSnapshot lr.reg o.transaction, 1⟩
    else
      ⟨0, none, unlockSnapshot lr.reg o.transaction, 1⟩

/-- Outcomes of the external calls made by `transaction_abort` (same shape as
`transaction_close` but without a finalize step). -/
structure AbortOracle where
  readOk : Bool
  transaction : String
  mallocOk : Bool
  strdupOk : Bool
  newTxOk : Bool
  resumeRet : Int
  errmsg : String
deriving DecidableEq, Repr

/-- Model of `transaction_abort` (tukitd.c lines 320-349): like `transaction_close`
but the snapshot is merely resumed and dropped (no finalize); every path
after a successful lock calls `unlockSnapshot` exactly once at
`finish_abort`. -/
def transaction_abort (o : AbortOracle) (reg : List TransactionEntry) :
    CloseResult :=
  if o.readOk = false then
    ⟨-1, some "Could not read D-Bus parameters.", reg, 0⟩
  else
    let lr := lockSnapshot o.mallocOk o.strdupOk reg o.transaction
    if lr.ret ≠ 0 then
      ⟨lr.ret, lr.err, lr.reg, 0⟩
    else if o.newTxOk = false then
      ⟨0, some o.errmsg, unlockSnapshot lr.reg o.transaction, 1⟩
    else if o.resumeRet ≠ 0 then
      ⟨o.resumeRet, some o.errmsg, unlockSnapshot lr.reg o.transaction, 1⟩
    else
      ⟨0, none, unlockSnapshot lr.reg o.transaction, 1⟩

/-! ### Claims C2 and C5 -/

/-- Claim C2.  No orphan locks: every terminal path of the worker
(`execution_func`) emits exactly one bus signal carrying the transaction id
(an `Error` or the `CommandExecuted` signal, each of which re-enters
`signalCallback` and releases the id), provided the last-resort `Error`
emission channel works (the spec assumes the transport reliable); and every
path of `transaction_close` whose `lockSnapshot` succeeded invokes
`unlockSnapshot` exactly once. -/
theorem c2_no_orphan_locks (o : WorkerOracle) (co : CloseOracle)
    (t c : String) (chrooted : Bool) (reg : List TransactionEntry)
    (hsend : o.sendErrorOk = true) (hread : co.readOk = true)
    (hlock : (lockSnapshot co.mallocOk co.strdupOk reg co.transaction).ret = 0) :
    countSignalsFor t (execution_func o t c chrooted).signals = 1 ∧
    (transaction_close co reg).unlocks = 1 := by
  constructor
  · by_cases h1 : o.newTxOk = false
    · simp [execution_func, h1, send_error_signal, hsend, countSignalsFor,
        errorEmitted, signalTransaction]
    · by_cases h2 : o.resumeRet ≠ 0
      · simp [execution_func, h1, h2, send_error_signal, hsend, countSignalsFor,
          errorEmitted, signalTransaction]
      · by_cases h3 : o.wordexpRet ≠ 0
        · simp [execution_func, h1, h2, h3, send_error_signal, hsend,
            countSignalsFor, errorEmitted, signalTransaction]
        · by_cases h4 : o.keepRet ≠ 0
          · simp [execution_func, h1, h2, h3, h4, send_error_signal, hsend,
              countSignalsFor, errorEmitted, signalTransaction]
          · by_cases h5 : 0 ≤ o.emitExecutedRet
            · simp [execution_func, h1, h2, h3, h4, h5, countSignalsFor,
                executedEmitted, signalTransaction]
            · simp [execution_func, h1, h2, h3, h4, h5, send_error_signal, hsend,
                countSignalsFor, errorEmitted, signalTransaction]
  · simp only [transaction_close, hread, Bool.true_eq_false, if_neg,
      reduceCtorEq, not_false_iff, if_false]
    rw [if_neg (by simp [hlock])]
    by_cases h1 : co.newTxOk = false
    · simp [h1]
    · by_cases h2 : co.resumeRet ≠ 0
      · simp [h1, h2]
      · by_cases h3 : co.finalizeRet ≠ 0
        · simp [h1, h2, h3]
        · simp [h1, h2, h3]

theorem c2_no_orphan_locks_witness :
    countSignalsFor "a"
      (execution_func ⟨true, 0, 0, 7, "out", 0, 0, true, "msg"⟩ "a" "cmd" true).signals
        = 1 ∧
    (transaction_close ⟨true, "b", true, true, true, 0, 0, "msg"⟩ []).unlocks = 1 :=
  c2_no_orphan_locks ⟨true, 0, 0, 7, "out", 0, 0, true, "msg"⟩
    ⟨true, "b", true, true, true, 0, 0, "msg"⟩ "a" "cmd" true [] rfl rfl (by decide)

/-- Claim C5.  Retain step of the worker: once the expanded command has been
executed (i.e. `tukit_new_tx`, `tukit_tx_resume` and `wordexp` all
succeeded), `execution_func` always invokes `tukit_tx_keep`, whatever the
command's numeric return code; when keep succeeds and the emission works, the
worker emits `CommandExecuted` with the captured return code and output —
a non-zero command return code alone never produces a failure notification;
and when keep fails the worker emits only the `Error` notification (whose
body holds the engine message, not the captured output) and never
`CommandExecuted`. -/
theorem c5_retain_step (o : WorkerOracle) (t c : String) (chrooted : Bool)
    (h1 : o.newTxOk = true) (h2 : o.resumeRet = 0) (h3 : o.wordexpRet = 0) :
    EngineCall.keep ∈ (execution_func o t c chrooted).calls ∧
    (o.keepRet = 0 → 0 ≤ o.emitExecutedRet →
      (execution_func o t c chrooted).signals =
        [executedEmitted t o.execRet o.execOutput]) ∧
    (o.keepRet ≠ 0 →
      (execution_func o t c chrooted).signals =
        (if o.sendErrorOk then [errorEmitted t o.errmsg (-1)] else []) ∧
      ∀ rc out, executedEmitted t rc out ∉ (execution_func o t c chrooted).signals) := by
  have h1' : ¬o.newTxOk = false := by simp [h1]
  refine ⟨?_, ?_, ?_⟩
  · by_cases h4 : o.keepRet ≠ 0
    · simp [execution_func, h1', h2, h3, h4]
    · by_cases h5 : 0 ≤ o.emitExecutedRet
      · simp [execution_func, h1', h2, h3, h4, h5]
      · simp [execution_func, h1', h2, h3, h4, h5]
  · intro h4 h5
    simp [execution_func, h1', h2, h3, h4, h5]
  · intro h4
    constructor
    · by_cases hs : o.sendErrorOk
      · simp [execution_func, h1', h2, h3, h4, send_error_signal, hs]
      · simp [execution_func, h1', h2, h3, h4, send_error_signal, hs]
    · intro rc out
      by_cases hs : o.sendErrorOk
      · simp [execution_func, h1', h2, h3, h4, send_error_signal, hs,
          errorEmitted, executedEmitted]
      · simp [execution_func, h1', h2, h3, h4, send_error_signal, hs]

theorem c5_retain_step_witness :
    (EngineCall.keep ∈
      (execution_func ⟨true, 0, 0, 5, "out", 0, 0, true, "msg"⟩ "a" "cmd" false).calls ∧
    ((⟨true, 0, 0, 5, "out", 0, 0, true, "msg"⟩ : WorkerOracle).keepRet = 0 →
      0 ≤ (⟨true, 0, 0, 5, "out", 0, 0, true, "msg"⟩ : WorkerOracle).emitExecutedRet →
      (execution_func ⟨true, 0, 0, 5, "out", 0, 0, true, "msg"⟩ "a" "cmd" false).signals =
        [executedEmitted "a" 5 "out"]) ∧
    ((⟨true, 0, 0, 5, "out", 0, 0, true, "msg"⟩ : WorkerOracle).keepRet ≠ 0 →
      (execution_func ⟨true, 0, 0, 5, "out", 0, 0, true, "msg"⟩ "a" "cmd" false).signals =
        (if (⟨true, 0, 0, 5, "out", 0, 0, true, "msg"⟩ : WorkerOracle).sendErrorOk then
          [errorEmitted "a" "msg" (-1)] else []) ∧
      ∀ rc out, executedEmitted "a" rc out ∉
        (execution_func ⟨true, 0, 0, 5, "out", 0, 0, true, "msg"⟩ "a" "cmd" false).signals)) :=
  c5_retain_step ⟨true, 0, 0, 5, "out", 0, 0, true, "msg"⟩ "a" "cmd" false rfl rfl rfl

/-! ### The asynchronous execution request path (`execute`, Call/CallExt) -/

/-- Inputs and external outcomes of one `execute` invocation: the
`sd_bus_message_read("ss", ...)` outcome, the two strings read from the
message, the allocation outcomes inside `lockSnapshot`, and the outcomes of
the spawned worker.  `pthread_create` is assumed to succeed: its failure path
in the C code never reaches a return statement (the handshake loop at lines
249-251 would spin forever), so it has no terminal outcome to model. -/
structure CallOracle where
  readOk : Bool
  transaction : String
  command : String
  mallocOk : Bool
  strdupOk : Bool
  worker : WorkerOracle
deriving DecidableEq, Repr

/-- Result of `execute`: the synchronous return value, the `sd_bus_error`
message set synchronously (if any), the registry at the time `execute`
returns, and the signals the detached worker eventually puts on the bus. -/
structure ExecuteResult where
  ret : Int
  err : Option String
  reg : List TransactionEntry
  asyncSignals : List EmittedSignal
deriving DecidableEq, Repr

/-- The walk at tukitd.c lines 242-246 selects the entry just appended by
`lockSnapshot` (the last real entry); the worker sets that entry's state to
`running` through the shared pointer before `execute` returns. -/
def setLastRunning : List TransactionEntry → List TransactionEntry
  | [] => []
  | e :: rest =>
    match rest with
    | [] => [⟨e.id, transactionstates.running⟩]
    | _ :: _ => e :: setLastRunning rest

/-- Model of `execute` (tukitd.c lines 225-256): reads the two parameters (returning a
synchronous error if unreadable), acquires the lock (propagating `-EBUSY` or
`-ENOMEM` synchronously), then spawns the detached worker and busy-waits
until the worker has marked the record `running`.  The worker's signals are
delivered asynchronously, after `execute` has already returned. -/
def execute (o : CallOracle) (chrooted : Bool) (reg : List TransactionEntry) :
    ExecuteResult :=
  if o.readOk = false then
    ⟨-1, some "Could not read D-Bus parameters.", reg, []⟩
  else
    let lr := lockSnapshot o.mallocOk o.strdupOk reg o.transaction
    if lr.ret ≠ 0 then
      ⟨lr.ret, lr.err, lr.reg, []⟩
    else
      ⟨0, none, setLastRunning lr.reg,
        (execution_func o.worker o.transaction o.command chrooted).signals⟩

/-- Model of `transaction_call` (tukitd.c lines 258-263): runs `execute` in chrooted
mode; on success (return 0) replies to the method call with an empty, i.e.
successful, return.  The second component records whether that success reply
was sent. -/
def transaction_call (o : CallOracle) (reg : List TransactionEntry) :
    ExecuteResult × Bool :=
  let r := execute o true reg
  if r.ret ≠ 0 then (r, false) else (r, true)

/-- Model of `transaction_callext` (tukitd.c lines 265-270): same in ambient mode. -/
def transaction_callext (o : CallOracle) (reg : List TransactionEntry) :
    ExecuteResult × Bool :=
  let r := execute o false reg
  if r.ret ≠ 0 then (r, false) else (r, true)

/-! ### `transaction_open`, the signal match and `signalCallback` -/

/-- Outcomes of the external calls made by `transaction_open`: the message
read, `tukit_new_tx`, `tukit_tx_init`, `tukit_tx_get_snapshot` (with the id
it returns when non-NULL), `tukit_tx_keep`, the `TransactionOpened` emission
and the method reply. -/
structure OpenOracle where
  readOk : Bool
  newTxOk : Bool
  initRet : Int
  snapshotOk : Bool
  snapid : String
  keepRet : Int
  emitOk : Bool
  replyRet : Int
  errmsg : String
deriving DecidableEq, Repr

/-- Result of `transaction_open`: return value, `sd_bus_error` message set
(if any), and the signals emitted.  `transaction_open` never touches the
registry (its `userdata` is unused), so no registry appears here. -/
structure OpenResult where
  ret : Int
  err : Option String
  signals : List EmittedSignal
deriving DecidableEq, Repr

/-- Model of `transaction_open` (tukitd.c lines 99-142): creates and retains a new
transaction from the base snapshot, broadcasts `TransactionOpened` with the
new id on object path `/org/opensuse/tukit`, and replies with the id.  It
never calls `lockSnapshot` or `unlockSnapshot`. -/
def transaction_open (o : OpenOracle) : OpenResult :=
  if o.readOk = false then
    ⟨-1, some "Could not read base snapshot identifier.", []⟩
  else if o.newTxOk = false then
    ⟨-1, some o.errmsg, []⟩
  else if o.initRet ≠ 0 then
    ⟨o.initRet, some o.errmsg, []⟩
  else if o.snapshotOk = false then
    ⟨-1, some o.errmsg, []⟩
  else if o.keepRet ≠ 0 then
    ⟨o.keepRet, some o.errmsg, []⟩
  else if o.emitOk = false then
    -- source message text: "Sending signal 'TransactionOpened' failed."
    ⟨-1, some "Sending signal TransactionOpened failed.", []⟩
  else
    ⟨o.replyRet, none, [openedEmitted o.snapid]⟩

/-- The subscription installed in `main` (tukitd.c lines 421-428):
`sd_bus_match_signal(bus, NULL, NULL, "/org/opensuse/tukit", NULL, NULL,
signalCallback, activeTransactions)` — sender, interface and member are all
NULL, so a signal matches exactly when its object path is
`/org/opensuse/tukit`. -/
def signalMatchesTukit (e : EmittedSignal) : Bool :=
  e.path = "/org/opensuse/tukit"

/-- Model of `signalCallback` (tukitd.c lines 272-282): reads the first string
argument of the matched signal and unlocks that transaction id; if the read
fails it returns `-1` without touching the registry. -/
def signalCallback (readOk : Bool) (reg : List TransactionEntry)
    (e : EmittedSignal) : Int × List TransactionEntry :=
  if readOk = false then (-1, reg)
  else (0, unlockSnapshot reg (signalTransaction e.body))

/-! ### Claim C9 (corrected) -/

/-- A Call request whose D-Bus parameters are unreadable. -/
def c9ReadFailOracle : CallOracle :=
  ⟨false, "t1", "echo hi", true, true, ⟨true, 0, 0, 0, "", 0, 0, true, "m"⟩⟩

/-- Counterexample to claim C9 as stated.  The claim says unreadable RPC
parameters are surfaced asynchronously — as an `Error` broadcast after the
method has already returned successfully — on the Call/CallExt path.  In the
code, `execute` checks `sd_bus_message_read` before anything else and returns
`-1` with a synchronous `sd_bus_error`; no worker is spawned, no success
reply is sent and no `Error` broadcast ever occurs. -/
theorem c9_counterexample :
    (transaction_call c9ReadFailOracle []).1.ret = -1 ∧
    (transaction_call c9ReadFailOracle []).1.err =
      some "Could not read D-Bus parameters." ∧
    (transaction_call c9ReadFailOracle []).1.asyncSignals = [] ∧
    (transaction_call c9ReadFailOracle []).2 = false := by
  refine ⟨rfl, rfl, rfl, rfl⟩

/-- Claim C9 as amended: unreadable RPC parameters are surfaced
synchronously (direct error return, no broadcast) for every method,
Call/CallExt included; unparseable command text — which only the worker can
detect — is surfaced asynchronously as an `Error` broadcast after the
Call/CallExt method has already returned successfully. -/
theorem c9_malformed_input (o : CallOracle) (co : CloseOracle) (ao : AbortOracle)
    (oo : OpenOracle) (reg : List TransactionEntry) :
    (o.readOk = false →
      transaction_call o reg =
        (⟨-1, some "Could not read D-Bus parameters.", reg, []⟩, false)) ∧
    (co.readOk = false →
      transaction_close co reg =
        ⟨-1, some "Could not read D-Bus parameters.", reg, 0⟩) ∧
    (ao.readOk = false →
      transaction_abort ao reg =
        ⟨-1, some "Could not read D-Bus parameters.", reg, 0⟩) ∧
    (oo.readOk = false →
      transaction_open oo = ⟨-1, some "Could not read base snapshot identifier.", []⟩) ∧
    (o.readOk = true →
      (lockSnapshot o.mallocOk o.strdupOk reg o.transaction).ret = 0 →
      o.worker.newTxOk = true → o.worker.resumeRet = 0 → o.worker.wordexpRet ≠ 0 →
      o.worker.sendErrorOk = true →
      (transaction_call o reg).2 = true ∧
      (transaction_call o reg).1.err = none ∧
      (transaction_call o reg).1.asyncSignals =
        [errorEmitted o.transaction "Command could not be processed."
          o.worker.wordexpRet]) := by
  refine ⟨?_, ?_, ?_, ?_, ?_⟩
  · intro h
    simp [transaction_call, execute, h]
  · intro h
    simp [transaction_close, h]
  · intro h
    simp [transaction_abort, h]
  · intro h
    simp [transaction_open, h]
  · intro hread hlock h1 h2 h3 hsend
    have h1' : ¬o.worker.newTxOk = false := by simp [h1]
    have hr : execute o true reg =
        ⟨0, none, setLastRunning (lockSnapshot o.mallocOk o.strdupOk reg o.transaction).reg,
          (execution_func o.worker o.transaction o.command true).signals⟩ := by
      simp only [execute, hread, Bool.true_eq_false, if_neg, reduceCtorEq,
        not_false_iff, if_false]
      rw [if_neg (by simp [hlock])]
    have hw : (execution_func o.worker o.transaction o.command true).signals =
        [errorEmitted o.transaction "Command could not be processed."
          o.worker.wordexpRet] := by
      simp [execution_func, h1', h2, h3, send_error_signal, hsend]
    refine ⟨?_, ?_, ?_⟩
    · simp [transaction_call, hr]
    · simp [transaction_call, hr]
    · simp [transaction_call, hr, hw]

theorem c9_malformed_input_witness :
    (transaction_call
        ⟨true, "t1", "(", true, true, ⟨true, 0, 2, 0, "", 0, 0, true, "m"⟩⟩ []).2 = true ∧
    (transaction_call
        ⟨true, "t1", "(", true, true, ⟨true, 0, 2, 0, "", 0, 0, true, "m"⟩⟩ []).1.err
      = none ∧
    (transaction_call
        ⟨true, "t1", "(", true, true, ⟨true, 0, 2, 0, "", 0, 0, true, "m"⟩⟩
        []).1.asyncSignals =
      [errorEmitted "t1" "Command could not be processed." 2] :=
  (c9_malformed_input
      ⟨true, "t1", "(", true, true, ⟨true, 0, 2, 0, "", 0, 0, true, "m"⟩⟩
      ⟨true, "x", true, true, true, 0, 0, "m"⟩
      ⟨true, "x", true, true, true, 0, "m"⟩
      ⟨true, true, 0, true, "s", 0, true, 0, "m"⟩ []).2.2.2.2
    rfl (by decide) rfl rfl (by decide) rfl

/-! ### Claim C10 -/

/-- Claim C10.  Every bus signal on object path `/org/opensuse/tukit` is
matched with no interface or member filter — the `TransactionOpened`
broadcast emitted by a successful `transaction_open` as much as
`CommandExecuted` and `Error` — and makes `signalCallback` attempt a release
of its first string argument; after a successful Open that release attempt
targets the freshly created snapshot id, which Open never locked, so as long
as that id is not locked by anyone the registry is left unchanged. -/
theorem c10_open_broadcast_noop (o : OpenOracle) (reg : List TransactionEntry)
    (h1 : o.readOk = true) (h2 : o.newTxOk = true) (h3 : o.initRet = 0)
    (h4 : o.snapshotOk = true) (h5 : o.keepRet = 0) (h6 : o.emitOk = true)
    (hfresh : o.snapid ∉ idsOf reg) :
    (transaction_open o).signals = [openedEmitted o.snapid] ∧
    signalMatchesTukit (openedEmitted o.snapid) = true ∧
    (∀ t rc out, signalMatchesTukit (executedEmitted t rc out) = true) ∧
    (∀ t msg code, signalMatchesTukit (errorEmitted t msg code) = true) ∧
    signalCallback true reg (openedEmitted o.snapid) = (0, reg) := by
  refine ⟨?_, rfl, fun t rc out => rfl, fun t msg code => rfl, ?_⟩
  · simp [transaction_open, h1, h2, h3, h4, h5, h6]
  · simp only [signalCallback, Bool.true_eq_false, if_neg, reduceCtorEq,
      not_false_iff, if_false, openedEmitted, signalTransaction]
    rw [unlock_of_not_mem reg o.snapid hfresh]

theorem c10_open_broadcast_noop_witness :
    ((transaction_open ⟨true, true, 0, true, "snap9", 0, true, 0, "m"⟩).signals =
      [openedEmitted "snap9"] ∧
    signalMatchesTukit (openedEmitted "snap9") = true ∧
    (∀ t rc out, signalMatchesTukit (executedEmitted t rc out) = true) ∧
    (∀ t msg code, signalMatchesTukit (errorEmitted t msg code) = true) ∧
    signalCallback true [⟨"other", transactionstates.queued⟩] (openedEmitted "snap9") =
      (0, [⟨"other", transactionstates.queued⟩])) :=
  c10_open_broadcast_noop ⟨true, true, 0, true, "snap9", 0, true, 0, "m"⟩
    [⟨"other", transactionstates.queued⟩] rfl rfl rfl rfl rfl rfl (by decide)

/-! ### Shutdown: `event_handler` and `main` -/

/-- Observable outcome of one `event_handler` run:
`drain target signo` — the registry was non-empty, the handler logged,
slept one second and sent signal `signo` to pid `target` via
`kill(si->ssi_pid, si->ssi_signo)`;
`stopLoop code` — the registry was empty and `sd_event_exit(event, code)`
succeeded; `fatalExit status` — `sd_event_exit` failed and the handler called
`exit(status)`. -/
inductive HandlerOutcome where
  | drain (target : Int) (signo : Int)
  | stopLoop (code : Int)
  | fatalExit (status : Int)
deriving DecidableEq, Repr

/-- Model of `event_handler` (tukitd.c lines 351-367), the SIGTERM/SIGINT handler.
`senderPid` is the `ssi_pid` field of the delivered `signalfd_siginfo` — the
pid of the process that SENT the signal — and `signo` its `ssi_signo`.  If
the registry still has an entry the handler sleeps and re-sends `signo` to
`senderPid`; otherwise it asks the event loop to exit with code 0
(`exitOk` is the outcome of `sd_event_exit`; on failure the process dies
with `exit(1)`). -/
def event_handler (exitOk : Bool) (reg : List TransactionEntry)
    (senderPid signo : Int) : HandlerOutcome :=
  match reg with
  | _ :: _ => HandlerOutcome.drain senderPid signo
  | [] =>
    if exitOk then HandlerOutcome.stopLoop 0 else HandlerOutcome.fatalExit 1

/-- Outcomes of the startup steps of `main` (tukitd.c lines 381-485), in
program order: the registry `malloc`, `sd_bus_open_system`,
`sd_bus_add_object_vtable`, `sd_bus_request_name`, `sd_bus_match_signal`,
`sd_event_default`, the `sigemptyset`/`sigaddset` pair, `sigprocmask`, the
two `sd_event_add_signal` calls, `sd_bus_attach_event`, and finally the
value `sd_event_loop` returns (the code passed to `sd_event_exit` on an
orderly shutdown). -/
structure MainOracle where
  mallocOk : Bool
  busOpenRet : Int
  addObjectRet : Int
  requestNameRet : Int
  matchSignalRet : Int
  eventDefaultRet : Int
  sigsetOk : Bool
  sigprocmaskOk : Bool
  addSigtermRet : Int
  addSigintRet : Int
  attachEventRet : Int
  eventLoopRet : Int
deriving DecidableEq, Repr

/-- Model of `main` (tukitd.c lines 381-485) reduced to its exit status
(`0` = `EXIT_SUCCESS`, `1` = `EXIT_FAILURE`).  The local `ret` starts at 1
and is overwritten by each library call in order; every failure jumps to
`finish`, which returns `ret < 0 ? EXIT_FAILURE : EXIT_SUCCESS`.  Two slips
are reproduced faithfully: the registry-malloc failure path reaches `finish`
with `ret == 1`, and the `sigemptyset`/`sigaddset`/`sigprocmask` failure
paths reach `finish` with `ret` still holding the non-negative
`sd_event_default` result — all of which convert to `EXIT_SUCCESS`. -/
def mainModel (o : MainOracle) : Int :=
  let finish : Int → Int := fun ret => if ret < 0 then 1 else 0
  if o.mallocOk = false then finish 1
  else if o.busOpenRet < 0 then finish o.busOpenRet
  else if o.addObjectRet < 0 then finish o.addObjectRet
  else if o.requestNameRet < 0 then finish o.requestNameRet
  else if o.matchSignalRet < 0 then finish o.matchSignalRet
  else if o.eventDefaultRet < 0 then finish o.eventDefaultRet
  else if o.sigsetOk = false then finish o.eventDefaultRet
  else if o.sigprocmaskOk = false then finish o.eventDefaultRet
  else if o.addSigtermRet < 0 then finish o.addSigtermRet
  else if o.addSigintRet < 0 then finish o.addSigintRet
  else if o.attachEventRet < 0 then finish o.attachEventRet
  else finish o.eventLoopRet

/-- All startup steps succeed and the event loop exits with the code 0 set
by `event_handler`. -/
def mainAllOk : MainOracle := ⟨true, 0, 0, 0, 0, 0, true, true, 0, 0, 0, 0⟩

/-- The registry allocation fails at tukitd.c line 389. -/
def mainMallocFail : MainOracle := ⟨false, 0, 0, 0, 0, 0, true, true, 0, 0, 0, 0⟩

/-- Oracle where `sigprocmask` fails at tukitd.c line 445. -/
def mainSigmaskFail : MainOracle := ⟨true, 0, 0, 0, 0, 0, true, false, 0, 0, 0, 0⟩

/-- The system-bus connection fails at tukitd.c line 397
(`-ECONNREFUSED`). -/
def mainBusFail : MainOracle := ⟨true, -111, 0, 0, 0, 0, true, true, 0, 0, 0, 0⟩

/-! ### Claim C6 (code bug) -/

/-- Claim C6, evaluated on the code.  With a non-empty registry the handler
does not exit and re-sends the same signal number — identically for
SIGTERM (15) and SIGINT (2) — but the `kill` targets `ssi_pid`, the pid of
the process that sent the signal (here 100 resp. 4242), NOT the daemon
itself; the claimed re-issue "to self" only happens when the signal was
self-sent.  With an empty registry the handler stops the loop with code 0
and `main` then returns `EXIT_SUCCESS`, as claimed. -/
theorem c6_drain_eval :
    event_handler true [⟨"snap1", transactionstates.queued⟩] 100 15 =
      HandlerOutcome.drain 100 15 ∧
    event_handler true [⟨"snap1", transactionstates.queued⟩] 4242 2 =
      HandlerOutcome.drain 4242 2 ∧
    event_handler true [] 100 15 = HandlerOutcome.stopLoop 0 ∧
    event_handler true [] 100 2 = HandlerOutcome.stopLoop 0 ∧
    mainModel mainAllOk = 0 := by
  refine ⟨rfl, rfl, rfl, rfl, rfl⟩

/-! ### Claim C7 (code bug) -/

/-- Claim C7, evaluated on the code.  `main` converts its local `ret` with
`ret < 0 ? EXIT_FAILURE : EXIT_SUCCESS`, so the registry-allocation failure
(`ret == 1`) and the signal-blocking failure (`ret` stale and non-negative)
exit with status 0 — contradicting the claim that every startup failure
exits non-zero.  Failures that store a negative code (e.g. the bus
connection) do exit non-zero, and the orderly shutdown exits 0, as
claimed. -/
theorem c7_startup_exit_status :
    mainModel mainMallocFail = 0 ∧
    mainModel mainSigmaskFail = 0 ∧
    mainModel mainBusFail = 1 ∧
    mainModel mainAllOk = 0 := by
  refine ⟨rfl, rfl, rfl, rfl⟩

/-! ### Claim C8: the eager-copy handshake

`execute` hands the worker a pointer to its stack-allocated
`struct execution_args` (tukitd.c line 248) and busy-waits on
`activeTransaction->state != running` (lines 249-251) before returning —
and the caller's storage may only be reclaimed after `execute` returns.
The worker (lines 156-164) copies the transaction id, the command string
and the `chrooted` flag out of that struct, takes the shared state pointer,
and only then stores `running`.  We model the interleaving of the two
threads as a small-step machine: `workerPC` counts the worker's completed
instructions (pc 0-2: the three copies out of `exec_args`; pc 3: the store
`*state = running`; pc ≥ 4: the body, which no longer touches the caller's
storage), `recordState` is the shared registry-record state the handshake
spins on, and `executeReturned` records that `execute` has passed the spin
loop and returned. -/

/-- Shared state of the `execute` thread and its freshly spawned worker. -/
structure HandoffState where
  workerPC : Nat
  recordState : transactionstates
  executeReturned : Bool
deriving DecidableEq, Repr

/-- Initial state: worker about to run its first instruction, record in
state `queued` as created by `lockSnapshot`, `execute` still spinning. -/
def handoffInit : HandoffState := ⟨0, transactionstates.queued, false⟩

/-- One interleaved step of the two threads. -/
inductive HandoffStep : HandoffState → HandoffState → Prop where
  | copyArg (s : HandoffState) :
      s.workerPC < 3 →
      HandoffStep s ⟨s.workerPC + 1, s.recordState, s.executeReturned⟩
  | setRunning (s : HandoffState) :
      s.workerPC = 3 →
      HandoffStep s ⟨4, transactionstates.running, s.executeReturned⟩
  | workerBody (s : HandoffState) :
      4 ≤ s.workerPC →
      HandoffStep s ⟨s.workerPC + 1, s.recordState, s.executeReturned⟩
  | executeReturn (s : HandoffState) :
      s.recordState = transactionstates.running →
      s.executeReturned = false →
      HandoffStep s ⟨s.workerPC, s.recordState, true⟩

theorem handoff_invariant (s : HandoffState)
    (h : Relation.ReflTransGen HandoffStep handoffInit s) :
    (s.recordState = transactionstates.running → 4 ≤ s.workerPC) ∧
    (s.executeReturned = true → s.recordState = transactionstates.running) := by
  induction h with
  | refl =>
    constructor
    · intro hr
      exact absurd hr (by simp [handoffInit])
    · intro hr
      exact absurd hr (by simp [handoffInit])
  | tail hr step ih =>
    cases step with
    | copyArg hpc =>
      refine ⟨fun hrun => ?_, fun hret => ih.2 hret⟩
      exact Nat.le_succ_of_le (ih.1 hrun)
    | setRunning hpc =>
      exact ⟨fun _ => le_refl 4, fun _ => rfl⟩
    | workerBody hpc =>
      refine ⟨fun hrun => ?_, fun hret => ih.2 hret⟩
      exact Nat.le_succ_of_le (ih.1 hrun)
    | executeReturn hrun hret =>
      exact ⟨fun h2 => ih.1 h2, fun _ => hrun⟩

/-- Claim C8.  Eager copy of the ExecutionTask: in every reachable
interleaving of `execute` and its worker, once `execute` has returned — the
first moment the initiating call's stack and request-scoped storage may be
reclaimed — the worker has already executed all its copies out of
`exec_args` (program counter past 3), so the worker never holds a reference
into the caller's storage after that storage may be reclaimed. -/
theorem c8_eager_copy (s : HandoffState)
    (h : Relation.ReflTransGen HandoffStep handoffInit s)
    (hret : s.executeReturned = true) : 4 ≤ s.workerPC :=
  (handoff_invariant s h).1 ((handoff_invariant s h).2 hret)

theorem c8_eager_copy_witness :
    4 ≤ (⟨4, transactionstates.running, true⟩ : HandoffState).workerPC := by
  have h01 : HandoffStep ⟨0, transactionstates.queued, false⟩
      ⟨1, transactionstates.queued, false⟩ :=
    HandoffStep.copyArg ⟨0, transactionstates.queued, false⟩ (by decide)
  have h12 : HandoffStep ⟨1, transactionstates.queued, false⟩
      ⟨2, transactionstates.queued, false⟩ :=
    HandoffStep.copyArg ⟨1, transactionstates.queued, false⟩ (by decide)
  have h23 : HandoffStep ⟨2, transactionstates.queued, false⟩
      ⟨3, transactionstates.queued, false⟩ :=
    HandoffStep.copyArg ⟨2, transactionstates.queued, false⟩ (by decide)
  have h34 : HandoffStep ⟨3, transactionstates.queued, false⟩
      ⟨4, transactionstates.running, false⟩ :=
    HandoffStep.setRunning ⟨3, transactionstates.queued, false⟩ rfl
  have h4r : HandoffStep ⟨4, transactionstates.running, false⟩
      ⟨4, transactionstates.running, true⟩ :=
    HandoffStep.executeReturn ⟨4, transactionstates.running, false⟩ rfl rfl
  have hreach : Relation.ReflTransGen HandoffStep handoffInit
      ⟨4, transactionstates.running, true⟩ :=
    Relation.ReflTransGen.head h01 (Relation.ReflTransGen.head h12
      (Relation.ReflTransGen.head h23 (Relation.ReflTransGen.head h34
        (Relation.ReflTransGen.head h4r Relation.ReflTransGen.refl))))
  exact c8_eager_copy ⟨4, transactionstates.running, true⟩ hreach rfl

end Tukitd
